import Mathlib

/-!
Shallow embedding of `crates/openvino/src/error.rs` from the openvino-rs
repository: the status-code-to-typed-error translation layer
(`InferenceError::from`), the Display rendering generated by the
`#[error("...")]` attributes, and the `SetupError` / `LoadingError`
composition layer with its `From` conversions.
-/

namespace openvino_sys

/-- Modelled from the spec: the native `ov_status_e` OK sentinel. The source
doc comment for `InferenceError::from` states that `0` becomes `Ok`. -/
def ov_status_e_OK : Int := 0

/-- Modelled from the spec: native `ov_status_e` sentinel for a general
error, imported verbatim from the native engine header referenced by the
source (`ov_status_e` in the OpenVINO C API). -/
def ov_status_e_GENERAL_ERROR : Int := -1

/-- Modelled from the spec: native sentinel for "not implemented". -/
def ov_status_e_NOT_IMPLEMENTED : Int := -2

/-- Modelled from the spec: native sentinel for "network not loaded". -/
def ov_status_e_NETWORK_NOT_LOADED : Int := -3

/-- Modelled from the spec: native sentinel for "parameter mismatch". -/
def ov_status_e_PARAMETER_MISMATCH : Int := -4

/-- Modelled from the spec: native sentinel for "not found". -/
def ov_status_e_NOT_FOUND : Int := -5

/-- Modelled from the spec: native sentinel for "out of bounds". -/
def ov_status_e_OUT_OF_BOUNDS : Int := -6

/-- Modelled from the spec: native sentinel for "unexpected". -/
def ov_status_e_UNEXPECTED : Int := -7

/-- Modelled from the spec: native sentinel for "request busy". -/
def ov_status_e_REQUEST_BUSY : Int := -8

/-- Modelled from the spec: native sentinel for "result not ready". -/
def ov_status_e_RESULT_NOT_READY : Int := -9

/-- Modelled from the spec: native sentinel for "not allocated". -/
def ov_status_e_NOT_ALLOCATED : Int := -10

/-- Modelled from the spec: native sentinel for "infer not started". -/
def ov_status_e_INFER_NOT_STARTED : Int := -11

/-- Modelled from the spec: native sentinel for "network not read". -/
def ov_status_e_NETWORK_NOT_READ : Int := -12

/-- Modelled from the spec: native sentinel for "infer cancelled". -/
def ov_status_e_INFER_CANCELLED : Int := -13

/-- Modelled from the spec: native sentinel for "invalid c parameter". -/
def ov_status_e_INVALID_C_PARAM : Int := -14

/-- Modelled from the spec: native sentinel for "unknown C error". -/
def ov_status_e_UNKNOWN_C_ERROR : Int := -15

/-- Modelled from the spec: native sentinel for "not implemented C method". -/
def ov_status_e_NOT_IMPLEMENT_C_METHOD : Int := -16

/-- Modelled from the spec: native sentinel for "unknown exception" (the
native header misspells it `UNKNOW_EXCEPTION`). -/
def ov_status_e_UNKNOW_EXCEPTION : Int := -17

end openvino_sys

/-- The closed error taxonomy `InferenceError` of `error.rs`: every variant
but `Undefined` carries a `message` string; `Undefined` carries the raw
`i32` status code. -/
inductive InferenceError where
  | GeneralError (message : String)
  | NotImplemented (message : String)
  | NetworkNotLoaded (message : String)
  | ParameterMismatch (message : String)
  | NotFound (message : String)
  | OutOfBounds (message : String)
  | Unexpected (message : String)
  | RequestBusy (message : String)
  | ResultNotReady (message : String)
  | NotAllocated (message : String)
  | InferNotStarted (message : String)
  | NetworkNotRead (message : String)
  | InferCancelled (message : String)
  | InvalidCParam (message : String)
  | UnknownCError (message : String)
  | NotImplementCMethod (message : String)
  | UnknownException (message : String)
  | Undefined (code : Int)
deriving DecidableEq, Repr

/-- Embedding of `InferenceError::from`. The process-global last-error
channel read by `ov_get_last_err_msg` is made an explicit parameter
`lastErrMsg`: the Rust code copies it into `message` only after the OK
check, and the if-chain mirrors the source `match` arm for arm, ending in
the `Undefined(error_code)` fallback. -/
def InferenceError.fromCode (error_code : Int) (lastErrMsg : String) :
    Except InferenceError Unit :=
  if error_code = openvino_sys.ov_status_e_OK then
    Except.ok ()
  else
    let message := lastErrMsg
    if error_code = openvino_sys.ov_status_e_GENERAL_ERROR then
      Except.error (.GeneralError message)
    else if error_code = openvino_sys.ov_status_e_NOT_IMPLEMENTED then
      Except.error (.NotImplemented message)
    else if error_code = openvino_sys.ov_status_e_NETWORK_NOT_LOADED then
      Except.error (.NetworkNotLoaded message)
    else if error_code = openvino_sys.ov_status_e_PARAMETER_MISMATCH then
      Except.error (.ParameterMismatch message)
    else if error_code = openvino_sys.ov_status_e_NOT_FOUND then
      Except.error (.NotFound message)
    else if error_code = openvino_sys.ov_status_e_OUT_OF_BOUNDS then
      Except.error (.OutOfBounds message)
    else if error_code = openvino_sys.ov_status_e_UNEXPECTED then
      Except.error (.Unexpected message)
    else if error_code = openvino_sys.ov_status_e_REQUEST_BUSY then
      Except.error (.RequestBusy message)
    else if error_code = openvino_sys.ov_status_e_RESULT_NOT_READY then
      Except.error (.ResultNotReady message)
    else if error_code = openvino_sys.ov_status_e_NOT_ALLOCATED then
      Except.error (.NotAllocated message)
    else if error_code = openvino_sys.ov_status_e_INFER_NOT_STARTED then
      Except.error (.InferNotStarted message)
    else if error_code = openvino_sys.ov_status_e_NETWORK_NOT_READ then
      Except.error (.NetworkNotRead message)
    else if error_code = openvino_sys.ov_status_e_INFER_CANCELLED then
      Except.error (.InferCancelled message)
    else if error_code = openvino_sys.ov_status_e_INVALID_C_PARAM then
      Except.error (.InvalidCParam message)
    else if error_code = openvino_sys.ov_status_e_UNKNOWN_C_ERROR then
      Except.error (.UnknownCError message)
    else if error_code = openvino_sys.ov_status_e_NOT_IMPLEMENT_C_METHOD then
      Except.error (.NotImplementCMethod message)
    else if error_code = openvino_sys.ov_status_e_UNKNOW_EXCEPTION then
      Except.error (.UnknownException message)
    else
      Except.error (.Undefined error_code)

/-- The known sentinel set: the seventeen non-OK codes matched by name in
the `match` of `InferenceError::from`. -/
def knownErrorCodes : List Int :=
  [openvino_sys.ov_status_e_GENERAL_ERROR,
   openvino_sys.ov_status_e_NOT_IMPLEMENTED,
   openvino_sys.ov_status_e_NETWORK_NOT_LOADED,
   openvino_sys.ov_status_e_PARAMETER_MISMATCH,
   openvino_sys.ov_status_e_NOT_FOUND,
   openvino_sys.ov_status_e_OUT_OF_BOUNDS,
   openvino_sys.ov_status_e_UNEXPECTED,
   openvino_sys.ov_status_e_REQUEST_BUSY,
   openvino_sys.ov_status_e_RESULT_NOT_READY,
   openvino_sys.ov_status_e_NOT_ALLOCATED,
   openvino_sys.ov_status_e_INFER_NOT_STARTED,
   openvino_sys.ov_status_e_NETWORK_NOT_READ,
   openvino_sys.ov_status_e_INFER_CANCELLED,
   openvino_sys.ov_status_e_INVALID_C_PARAM,
   openvino_sys.ov_status_e_UNKNOWN_C_ERROR,
   openvino_sys.ov_status_e_NOT_IMPLEMENT_C_METHOD,
   openvino_sys.ov_status_e_UNKNOW_EXCEPTION]

/-- Display rendering of `InferenceError`, generated in the source by the
`#[error("...")]` attribute on each variant. -/
def InferenceError.display : InferenceError → String
  | .GeneralError message => "general error: (" ++ message ++ ")"
  | .NotImplemented message => "not implemented: (" ++ message ++ ")"
  | .NetworkNotLoaded message => "network not loaded: (" ++ message ++ ")"
  | .ParameterMismatch message => "parameter mismatch: (" ++ message ++ ")"
  | .NotFound message => "not found: (" ++ message ++ ")"
  | .OutOfBounds message => "out of bounds: (" ++ message ++ ")"
  | .Unexpected message => "unexpected: (" ++ message ++ ")"
  | .RequestBusy message => "request busy: (" ++ message ++ ")"
  | .ResultNotReady message => "result not ready: (" ++ message ++ ")"
  | .NotAllocated message => "not allocated: (" ++ message ++ ")"
  | .InferNotStarted message => "infer not started: (" ++ message ++ ")"
  | .NetworkNotRead message => "network not read: (" ++ message ++ ")"
  | .InferCancelled message => "infer cancelled: (" ++ message ++ ")"
  | .InvalidCParam message => "invalid c parameter: (" ++ message ++ ")"
  | .UnknownCError message => "unknown C error: (" ++ message ++ ")"
  | .NotImplementCMethod message =>
      "not implemented C method: (" ++ message ++ ")"
  | .UnknownException message => "unknown exception: (" ++ message ++ ")"
  | .Undefined code => "undefined error code: " ++ toString code

/-- Structural equality of `InferenceError`, mirroring the derived
`PartialEq`/`Eq` implementation: same variant and equal payload. -/
def InferenceError.beq : InferenceError → InferenceError → Bool
  | .GeneralError m, .GeneralError m2 => m == m2
  | .NotImplemented m, .NotImplemented m2 => m == m2
  | .NetworkNotLoaded m, .NetworkNotLoaded m2 => m == m2
  | .ParameterMismatch m, .ParameterMismatch m2 => m == m2
  | .NotFound m, .NotFound m2 => m == m2
  | .OutOfBounds m, .OutOfBounds m2 => m == m2
  | .Unexpected m, .Unexpected m2 => m == m2
  | .RequestBusy m, .RequestBusy m2 => m == m2
  | .ResultNotReady m, .ResultNotReady m2 => m == m2
  | .NotAllocated m, .NotAllocated m2 => m == m2
  | .InferNotStarted m, .InferNotStarted m2 => m == m2
  | .NetworkNotRead m, .NetworkNotRead m2 => m == m2
  | .InferCancelled m, .InferCancelled m2 => m == m2
  | .InvalidCParam m, .InvalidCParam m2 => m == m2
  | .UnknownCError m, .UnknownCError m2 => m == m2
  | .NotImplementCMethod m, .NotImplementCMethod m2 => m == m2
  | .UnknownException m, .UnknownException m2 => m == m2
  | .Undefined k, .Undefined k2 => k == k2
  | _, _ => false

/-- The `LoadingError` taxonomy of `error.rs`: an opaque system failure
with a message payload and three payload-free path failures. -/
inductive LoadingError where
  | SystemFailure (msg : String)
  | CannotFindLibraryPath
  | CannotFindPluginPath
  | CannotStringifyPath
deriving DecidableEq, Repr

/-- Display rendering of `LoadingError`, generated in the source by the
`#[error("...")]` attribute on each variant. -/
def LoadingError.display : LoadingError → String
  | .SystemFailure s =>
      "system failed to load shared libraries (see https://github.com/intel/openvino-rs/blob/main/crates/openvino-finder): " ++ s
  | .CannotFindLibraryPath =>
      "cannot find path to shared libraries (see https://github.com/intel/openvino-rs/blob/main/crates/openvino-finder)"
  | .CannotFindPluginPath =>
      "cannot find path to XML plugin configuration (see https://github.com/intel/openvino-rs/blob/main/crates/openvino-finder)"
  | .CannotStringifyPath =>
      "unable to convert path to a UTF-8 string (see https://doc.rust-lang.org/std/path/struct.Path.html#method.to_str)"

/-- The two-variant `SetupError` union of `error.rs`, wrapping either an
`InferenceError` or a `LoadingError`. -/
inductive SetupError where
  | Inference (e : InferenceError)
  | Loading (e : LoadingError)
deriving DecidableEq, Repr

/-- The `#[from]` conversion `From<InferenceError> for SetupError`. -/
def SetupError.from_inference (e : InferenceError) : SetupError :=
  .Inference e

/-- The `#[from]` conversion `From<LoadingError> for SetupError`. -/
def SetupError.from_loading (e : LoadingError) : SetupError :=
  .Loading e

/-- Destructuring a `SetupError` at the inference arm, as a caller's
`match` would. -/
def SetupError.asInference : SetupError → Option InferenceError
  | .Inference e => some e
  | .Loading _ => none

/-- Destructuring a `SetupError` at the loading arm, as a caller's
`match` would. -/
def SetupError.asLoading : SetupError → Option LoadingError
  | .Loading e => some e
  | .Inference _ => none

/-- Display rendering of `SetupError`, generated in the source by the
`#[error("...")]` attribute on each variant: a constant string per arm. -/
def SetupError.display : SetupError → String
  | .Inference _ => "inference error"
  | .Loading _ => "library loading error"

/-- Helper: the embedded structural equality agrees with propositional
equality on `InferenceError`. -/
theorem InferenceError.beq_iff (a b : InferenceError) :
    InferenceError.beq a b = true ↔ a = b := by
  cases a <;> cases b <;> simp [InferenceError.beq]

/-- Helper: on any non-OK code the translation produces some error value. -/
theorem fromCode_error_of_ne (c : Int) (msg : String)
    (h0 : c ≠ openvino_sys.ov_status_e_OK) :
    ∃ e, InferenceError.fromCode c msg = Except.error e := by
  simp only [InferenceError.fromCode, if_neg h0]
  by_cases h1 : c = openvino_sys.ov_status_e_GENERAL_ERROR
  · rw [if_pos h1]
    exact ⟨_, rfl⟩
  rw [if_neg h1]
  by_cases h2 : c = openvino_sys.ov_status_e_NOT_IMPLEMENTED
  · rw [if_pos h2]
    exact ⟨_, rfl⟩
  rw [if_neg h2]
  by_cases h3 : c = openvino_sys.ov_status_e_NETWORK_NOT_LOADED
  · rw [if_pos h3]
    exact ⟨_, rfl⟩
  rw [if_neg h3]
  by_cases h4 : c = openvino_sys.ov_status_e_PARAMETER_MISMATCH
  · rw [if_pos h4]
    exact ⟨_, rfl⟩
  rw [if_neg h4]
  by_cases h5 : c = openvino_sys.ov_status_e_NOT_FOUND
  · rw [if_pos h5]
    exact ⟨_, rfl⟩
  rw [if_neg h5]
  by_cases h6 : c = openvino_sys.ov_status_e_OUT_OF_BOUNDS
  · rw [if_pos h6]
    exact ⟨_, rfl⟩
  rw [if_neg h6]
  by_cases h7 : c = openvino_sys.ov_status_e_UNEXPECTED
  · rw [if_pos h7]
    exact ⟨_, rfl⟩
  rw [if_neg h7]
  by_cases h8 : c = openvino_sys.ov_status_e_REQUEST_BUSY
  · rw [if_pos h8]
    exact ⟨_, rfl⟩
  rw [if_neg h8]
  by_cases h9 : c = openvino_sys.ov_status_e_RESULT_NOT_READY
  · rw [if_pos h9]
    exact ⟨_, rfl⟩
  rw [if_neg h9]
  by_cases h10 : c = openvino_sys.ov_status_e_NOT_ALLOCATED
  · rw [if_pos h10]
    exact ⟨_, rfl⟩
  rw [if_neg h10]
  by_cases h11 : c = openvino_sys.ov_status_e_INFER_NOT_STARTED
  · rw [if_pos h11]
    exact ⟨_, rfl⟩
  rw [if_neg h11]
  by_cases h12 : c = openvino_sys.ov_status_e_NETWORK_NOT_READ
  · rw [if_pos h12]
    exact ⟨_, rfl⟩
  rw [if_neg h12]
  by_cases h13 : c = openvino_sys.ov_status_e_INFER_CANCELLED
  · rw [if_pos h13]
    exact ⟨_, rfl⟩
  rw [if_neg h13]
  by_cases h14 : c = openvino_sys.ov_status_e_INVALID_C_PARAM
  · rw [if_pos h14]
    exact ⟨_, rfl⟩
  rw [if_neg h14]
  by_cases h15 : c = openvino_sys.ov_status_e_UNKNOWN_C_ERROR
  · rw [if_pos h15]
    exact ⟨_, rfl⟩
  rw [if_neg h15]
  by_cases h16 : c = openvino_sys.ov_status_e_NOT_IMPLEMENT_C_METHOD
  · rw [if_pos h16]
    exact ⟨_, rfl⟩
  rw [if_neg h16]
  by_cases h17 : c = openvino_sys.ov_status_e_UNKNOW_EXCEPTION
  · rw [if_pos h17]
    exact ⟨_, rfl⟩
  rw [if_neg h17]
  exact ⟨_, rfl⟩

/-- C1: for every status code `c`, `InferenceError::from` returns `Ok(())`
if and only if `c` is the native OK sentinel, and for every other `c` it
returns `Err` of some `InferenceError` variant; success is never
represented as an error variant. -/
theorem fromCode_ok_iff (c : Int) (msg : String) :
    (InferenceError.fromCode c msg = Except.ok () ↔
      c = openvino_sys.ov_status_e_OK) ∧
    (c = openvino_sys.ov_status_e_OK ∨
      ∃ e, InferenceError.fromCode c msg = Except.error e) := by
  constructor
  · constructor
    · intro h
      by_contra h0
      obtain ⟨e, he⟩ := fromCode_error_of_ne c msg h0
      rw [he] at h
      exact Except.noConfusion h
    · intro h
      subst h
      rfl
  · by_cases h0 : c = openvino_sys.ov_status_e_OK
    · exact Or.inl h0
    · exact Or.inr (fromCode_error_of_ne c msg h0)

/-- C1 witness: at `c = 0` the translation is `Ok(())`, and at `c = 42`
it is an error. -/
theorem fromCode_ok_iff_witness :
    (InferenceError.fromCode 0 "m" = Except.ok () ↔
      (0 : Int) = openvino_sys.ov_status_e_OK) ∧
    ((42 : Int) = openvino_sys.ov_status_e_OK ∨
      ∃ e, InferenceError.fromCode 42 "m" = Except.error e) :=
  ⟨(fromCode_ok_iff 0 "m").1, (fromCode_ok_iff 42 "m").2⟩

/-- C2: for every known sentinel code, `InferenceError::from` returns the
variant fixed by the table, carrying exactly the last-error channel
content captured at call time. -/
theorem fromCode_known_codes (msg : String) :
    InferenceError.fromCode openvino_sys.ov_status_e_GENERAL_ERROR msg =
      Except.error (.GeneralError msg) ∧
    InferenceError.fromCode openvino_sys.ov_status_e_NOT_IMPLEMENTED msg =
      Except.error (.NotImplemented msg) ∧
    InferenceError.fromCode openvino_sys.ov_status_e_NETWORK_NOT_LOADED msg =
      Except.error (.NetworkNotLoaded msg) ∧
    InferenceError.fromCode openvino_sys.ov_status_e_PARAMETER_MISMATCH msg =
      Except.error (.ParameterMismatch msg) ∧
    InferenceError.fromCode openvino_sys.ov_status_e_NOT_FOUND msg =
      Except.error (.NotFound msg) ∧
    InferenceError.fromCode openvino_sys.ov_status_e_OUT_OF_BOUNDS msg =
      Except.error (.OutOfBounds msg) ∧
    InferenceError.fromCode openvino_sys.ov_status_e_UNEXPECTED msg =
      Except.error (.Unexpected msg) ∧
    InferenceError.fromCode openvino_sys.ov_status_e_REQUEST_BUSY msg =
      Except.error (.RequestBusy msg) ∧
    InferenceError.fromCode openvino_sys.ov_status_e_RESULT_NOT_READY msg =
      Except.error (.ResultNotReady msg) ∧
    InferenceError.fromCode openvino_sys.ov_status_e_NOT_ALLOCATED msg =
      Except.error (.NotAllocated msg) ∧
    InferenceError.fromCode openvino_sys.ov_status_e_INFER_NOT_STARTED msg =
      Except.error (.InferNotStarted msg) ∧
    InferenceError.fromCode openvino_sys.ov_status_e_NETWORK_NOT_READ msg =
      Except.error (.NetworkNotRead msg) ∧
    InferenceError.fromCode openvino_sys.ov_status_e_INFER_CANCELLED msg =
      Except.error (.InferCancelled msg) ∧
    InferenceError.fromCode openvino_sys.ov_status_e_INVALID_C_PARAM msg =
      Except.error (.InvalidCParam msg) ∧
    InferenceError.fromCode openvino_sys.ov_status_e_UNKNOWN_C_ERROR msg =
      Except.error (.UnknownCError msg) ∧
    InferenceError.fromCode openvino_sys.ov_status_e_NOT_IMPLEMENT_C_METHOD msg =
      Except.error (.NotImplementCMethod msg) ∧
    InferenceError.fromCode openvino_sys.ov_status_e_UNKNOW_EXCEPTION msg =
      Except.error (.UnknownException msg) := by
  refine ⟨?_, ?_, ?_, ?_, ?_, ?_, ?_, ?_, ?_, ?_, ?_, ?_, ?_, ?_, ?_, ?_, ?_⟩ <;> rfl

/-- C3: every code outside the known sentinel set and distinct from OK
translates to `Undefined` carrying the raw code. -/
theorem fromCode_undefined (c : Int) (msg : String)
    (hok : c ≠ openvino_sys.ov_status_e_OK) (hk : c ∉ knownErrorCodes) :
    InferenceError.fromCode c msg = Except.error (.Undefined c) := by
  simp only [knownErrorCodes, List.mem_cons, List.not_mem_nil, or_false,
    not_or] at hk
  obtain ⟨h1, h2, h3, h4, h5, h6, h7, h8, h9, h10, h11, h12, h13, h14, h15,
    h16, h17⟩ := hk
  simp only [InferenceError.fromCode]
  rw [if_neg hok, if_neg h1, if_neg h2, if_neg h3, if_neg h4, if_neg h5,
    if_neg h6, if_neg h7, if_neg h8, if_neg h9, if_neg h10, if_neg h11,
    if_neg h12, if_neg h13, if_neg h14, if_neg h15, if_neg h16, if_neg h17]

/-- C3 witness: the unmapped code 9999 yields `Undefined(9999)`. -/
theorem fromCode_undefined_witness :
    InferenceError.fromCode 9999 "m" = Except.error (.Undefined 9999) :=
  fromCode_undefined 9999 "m" (by decide) (by decide)

/-- C4: the translation is a total function: for every code and every
last-error content it yields either `Ok(())` or `Err` of some variant. -/
theorem fromCode_total (c : Int) (msg : String) :
    InferenceError.fromCode c msg = Except.ok () ∨
    ∃ e, InferenceError.fromCode c msg = Except.error e := by
  by_cases h0 : c = openvino_sys.ov_status_e_OK
  · subst h0
    exact Or.inl rfl
  · exact Or.inr (fromCode_error_of_ne c msg h0)

/-- C5: each message-carrying variant renders as "kind: (message)" per the
fixed table, `Undefined k` renders as "undefined error code: k", and the
two concrete scenarios from the spec hold. -/
theorem display_templates (m : String) (k : Int) :
    InferenceError.display (.GeneralError m) = "general error: (" ++ m ++ ")" ∧
    InferenceError.display (.NotImplemented m) = "not implemented: (" ++ m ++ ")" ∧
    InferenceError.display (.NetworkNotLoaded m) = "network not loaded: (" ++ m ++ ")" ∧
    InferenceError.display (.ParameterMismatch m) = "parameter mismatch: (" ++ m ++ ")" ∧
    InferenceError.display (.NotFound m) = "not found: (" ++ m ++ ")" ∧
    InferenceError.display (.OutOfBounds m) = "out of bounds: (" ++ m ++ ")" ∧
    InferenceError.display (.Unexpected m) = "unexpected: (" ++ m ++ ")" ∧
    InferenceError.display (.RequestBusy m) = "request busy: (" ++ m ++ ")" ∧
    InferenceError.display (.ResultNotReady m) = "result not ready: (" ++ m ++ ")" ∧
    InferenceError.display (.NotAllocated m) = "not allocated: (" ++ m ++ ")" ∧
    InferenceError.display (.InferNotStarted m) = "infer not started: (" ++ m ++ ")" ∧
    InferenceError.display (.NetworkNotRead m) = "network not read: (" ++ m ++ ")" ∧
    InferenceError.display (.InferCancelled m) = "infer cancelled: (" ++ m ++ ")" ∧
    InferenceError.display (.InvalidCParam m) = "invalid c parameter: (" ++ m ++ ")" ∧
    InferenceError.display (.UnknownCError m) = "unknown C error: (" ++ m ++ ")" ∧
    InferenceError.display (.NotImplementCMethod m) = "not implemented C method: (" ++ m ++ ")" ∧
    InferenceError.display (.UnknownException m) = "unknown exception: (" ++ m ++ ")" ∧
    InferenceError.display (.Undefined k) = "undefined error code: " ++ toString k ∧
    InferenceError.display (.NotFound "model id 7") = "not found: (model id 7)" ∧
    InferenceError.display (.Undefined 9999) = "undefined error code: 9999" := by
  refine ⟨?_, ?_, ?_, ?_, ?_, ?_, ?_, ?_, ?_, ?_, ?_, ?_, ?_, ?_, ?_, ?_, ?_, ?_, ?_, ?_⟩ <;> rfl

/-- C6: at the OK sentinel, the translation result is independent of the
last-error channel content, and is always `Ok(())`. -/
theorem fromCode_ok_noninterference (m1 m2 : String) :
    InferenceError.fromCode openvino_sys.ov_status_e_OK m1 = Except.ok () ∧
    InferenceError.fromCode openvino_sys.ov_status_e_OK m1 =
      InferenceError.fromCode openvino_sys.ov_status_e_OK m2 :=
  ⟨rfl, rfl⟩

/-- C7: `from_inference` and `from_loading` are injective, land in
disjoint variants, and the wrapped value is recovered unchanged by
destructuring; the opposite arm is never reached. -/
theorem setup_wrapping (a b : InferenceError) (l l2 : LoadingError) :
    (SetupError.from_inference a = SetupError.from_inference b ↔ a = b) ∧
    (SetupError.from_loading l = SetupError.from_loading l2 ↔ l = l2) ∧
    SetupError.from_inference a ≠ SetupError.from_loading l ∧
    SetupError.asInference (SetupError.from_inference a) = some a ∧
    SetupError.asLoading (SetupError.from_loading l) = some l ∧
    SetupError.asInference (SetupError.from_loading l) = none ∧
    SetupError.asLoading (SetupError.from_inference a) = none := by
  simp [SetupError.from_inference, SetupError.from_loading,
    SetupError.asInference, SetupError.asLoading]

/-- C7 witness: a wrapped `CannotFindLibraryPath` is recovered by the
loading arm and never matches the inference arm. -/
theorem setup_wrapping_witness :
    SetupError.asLoading (SetupError.from_loading .CannotFindLibraryPath) =
      some .CannotFindLibraryPath ∧
    SetupError.asInference (SetupError.from_loading .CannotFindLibraryPath) =
      none :=
  ⟨(setup_wrapping (.Undefined 0) (.Undefined 0) .CannotFindLibraryPath
      .CannotFindLibraryPath).2.2.2.2.1,
   (setup_wrapping (.Undefined 0) (.Undefined 0) .CannotFindLibraryPath
      .CannotFindLibraryPath).2.2.2.2.2.1⟩

/-- C8: structural equality on `InferenceError` coincides with
propositional equality (same variant, equal payload) and is an
equivalence relation. -/
theorem beq_structural (a b c : InferenceError) :
    (InferenceError.beq a b = true ↔ a = b) ∧
    InferenceError.beq a a = true ∧
    InferenceError.beq a b = InferenceError.beq b a ∧
    (InferenceError.beq a b = true → InferenceError.beq b c = true →
      InferenceError.beq a c = true) := by
  refine ⟨InferenceError.beq_iff a b, (InferenceError.beq_iff a a).mpr rfl,
    ?_, ?_⟩
  · rw [Bool.eq_iff_iff, InferenceError.beq_iff, InferenceError.beq_iff]
    exact ⟨Eq.symm, Eq.symm⟩
  · intro h1 h2
    exact (InferenceError.beq_iff a c).mpr
      (((InferenceError.beq_iff a b).mp h1).trans
        ((InferenceError.beq_iff b c).mp h2))

/-- C8 witness: structural equality evaluated at concrete values,
including one transitivity instance. -/
theorem beq_structural_witness :
    InferenceError.beq (.Undefined 1) (.Undefined 1) = true ∧
    InferenceError.beq (.NotFound "x") (.NotFound "x") = true :=
  ⟨(beq_structural (.Undefined 1) (.Undefined 1) (.Undefined 1)).2.2.2
      (by decide) (by decide),
   (beq_structural (.NotFound "x") (.NotFound "x") (.NotFound "x")).2.1⟩

/-- C9: `LoadingError` rendering follows a fixed template per variant:
a fixed leading string followed by the payload for `SystemFailure`, and a
fixed constant string for each payload-free variant. -/
theorem loading_display (s : String) :
    LoadingError.display (.SystemFailure s) =
      "system failed to load shared libraries (see https://github.com/intel/openvino-rs/blob/main/crates/openvino-finder): " ++ s ∧
    LoadingError.display .CannotFindLibraryPath =
      "cannot find path to shared libraries (see https://github.com/intel/openvino-rs/blob/main/crates/openvino-finder)" ∧
    LoadingError.display .CannotFindPluginPath =
      "cannot find path to XML plugin configuration (see https://github.com/intel/openvino-rs/blob/main/crates/openvino-finder)" ∧
    LoadingError.display .CannotStringifyPath =
      "unable to convert path to a UTF-8 string (see https://doc.rust-lang.org/std/path/struct.Path.html#method.to_str)" :=
  ⟨rfl, rfl, rfl, rfl⟩

/-- C10: a `SetupError` renders to a constant string determined only by
its top-level variant, regardless of the wrapped value. -/
theorem setup_display (e : InferenceError) (l : LoadingError) :
    SetupError.display (.Inference e) = "inference error" ∧
    SetupError.display (.Loading l) = "library loading error" :=
  ⟨rfl, rfl⟩
